import Mathlib

/-!
Verification of the interface/link lifecycle core of the `netns` network
emulation library (`src/netns/interface.py`), via a shallow embedding.

Kernel-facing operations are modelled as an explicit `Call` trace together
with explicit state passing; fallible backend/proxy operations are driven
by an oracle `fail : Call → Bool` (`true` means the call raises).
-/

namespace Nemu

/-- Attribute values carried by interface/bridge records (names, numbers,
flags). -/
inductive AttrVal where
  | nat (n : Nat)
  | str (s : String)
  | bool (b : Bool)
deriving DecidableEq, Repr

/-- A Python-style attribute map: association list from attribute name to
value. -/
abbrev Attrs := List (String × AttrVal)

/-- Generic association-list lookup (first matching key). -/
def alookup {α β : Type} [DecidableEq α] : List (α × β) → α → Option β
  | [], _ => none
  | (k, v) :: r, n => if k = n then some v else alookup r n

/-- Generic association-list update: replace the first binding of the key,
or append a new binding if the key is absent. -/
def aset {α β : Type} [DecidableEq α] : List (α × β) → α → β → List (α × β)
  | [], k, v => [(k, v)]
  | (a, b) :: r, k, v => if a = k then (a, v) :: r else (a, b) :: aset r k v

theorem alookup_aset_self {α β : Type} [DecidableEq α]
    (l : List (α × β)) (k : α) (v : β) : alookup (aset l k v) k = some v := by
  induction l with
  | nil => simp [aset, alookup]
  | cons hd tl ih =>
    obtain ⟨a, b⟩ := hd
    by_cases h : a = k
    · simp [aset, alookup, h]
    · simp [aset, alookup, h, ih]

theorem alookup_aset_other {α β : Type} [DecidableEq α]
    (l : List (α × β)) (k m : α) (v : β) (h : m ≠ k) :
    alookup (aset l k v) m = alookup l m := by
  induction l with
  | nil =>
    simp only [aset, alookup]
    rw [if_neg (Ne.symm h)]
  | cons hd tl ih =>
    obtain ⟨a, b⟩ := hd
    simp only [aset]
    by_cases ha : a = k
    · rw [if_pos ha]
      subst ha
      simp only [alookup]
      rw [if_neg (Ne.symm h), if_neg (Ne.symm h)]
    · rw [if_neg ha]
      simp only [alookup]
      by_cases hm : a = m
      · rw [if_pos hm, if_pos hm]
      · rw [if_neg hm, if_neg hm, ih]

theorem alookup_eq_none_of_not_mem {α β : Type} [DecidableEq α]
    (l : List (α × β)) (n : α) (h : n ∉ l.map Prod.fst) :
    alookup l n = none := by
  induction l with
  | nil => simp [alookup]
  | cons hd tl ih =>
    obtain ⟨a, b⟩ := hd
    simp only [List.map_cons, List.mem_cons] at h
    push_neg at h
    simp only [alookup]
    rw [if_neg (Ne.symm h.1), ih h.2]

theorem not_mem_of_alookup_eq_none {α β : Type} [DecidableEq α]
    (l : List (α × β)) (n : α) (h : alookup l n = none) :
    n ∉ l.map Prod.fst := by
  induction l with
  | nil => simp
  | cons hd tl ih =>
    obtain ⟨a, b⟩ := hd
    simp only [alookup] at h
    by_cases ha : a = n
    · rw [if_pos ha] at h
      simp at h
    · rw [if_neg ha] at h
      simp only [List.map_cons, List.mem_cons]
      push_neg
      exact ⟨Ne.symm ha, ih h⟩

/-- Merge an update attribute list into a base attribute list, binding by
binding (the semantics of applying a record's present fields on top of
current state). -/
def mergeAttrs {α β : Type} [DecidableEq α]
    (base upd : List (α × β)) : List (α × β) :=
  upd.foldl (fun acc kv => aset acc kv.1 kv.2) base

theorem mergeAttrs_nil {α β : Type} [DecidableEq α] (base : List (α × β)) :
    mergeAttrs base [] = base := rfl

theorem mergeAttrs_cons {α β : Type} [DecidableEq α]
    (base : List (α × β)) (k : α) (v : β) (r : List (α × β)) :
    mergeAttrs base ((k, v) :: r) = mergeAttrs (aset base k v) r := rfl

theorem alookup_mergeAttrs_not_mem {α β : Type} [DecidableEq α]
    (base upd : List (α × β)) (n : α) (h : n ∉ upd.map Prod.fst) :
    alookup (mergeAttrs base upd) n = alookup base n := by
  induction upd generalizing base with
  | nil => simp [mergeAttrs]
  | cons hd tl ih =>
    obtain ⟨k, v⟩ := hd
    simp only [List.map_cons, List.mem_cons] at h
    push_neg at h
    rw [mergeAttrs_cons, ih (aset base k v) h.2,
      alookup_aset_other base k n v h.1]

theorem alookup_mergeAttrs_some {α β : Type} [DecidableEq α]
    (base upd : List (α × β)) (n : α) (v : β)
    (hnd : (upd.map Prod.fst).Nodup) (h : alookup upd n = some v) :
    alookup (mergeAttrs base upd) n = some v := by
  induction upd generalizing base with
  | nil => simp [alookup] at h
  | cons hd tl ih =>
    obtain ⟨k, w⟩ := hd
    simp only [List.map_cons, List.nodup_cons] at hnd
    rw [mergeAttrs_cons]
    by_cases hk : k = n
    · subst hk
      simp only [alookup, if_pos rfl] at h
      rw [alookup_mergeAttrs_not_mem (aset base k w) tl k hnd.1,
        alookup_aset_self]
      exact h
    · rw [alookup] at h
      rw [if_neg hk] at h
      exact ih (aset base k w) hnd.2 h

/-- Modelled from the spec: a backend/proxy interface *record* (the
`netns.iproute.interface(...)` value). Constructing one sets exactly the
fields passed by the caller and leaves every other field unset; creation
sites in `NodeInterface.__init__` construct records for interfaces that do
not exist yet, so construction performs no backend call. A full snapshot,
as returned by `get_if`/`get_if_data`, has all of the device's attributes
present. -/
structure IfRecord where
  index : Option Nat
  attrs : Attrs
deriving DecidableEq, Repr

/-- A bridge record (`netns.iproute.bridge(...)`), same shape. -/
structure BrRecord where
  index : Option Nat
  attrs : Attrs
deriving DecidableEq, Repr

/-- The traffic-control parameter dictionary built by
`Link.set_parameters` (`src/netns/interface.py:363-369`): each key optional,
absence meaning "do not shape this dimension". -/
structure TCParams where
  bandwidth : Option Nat
  delay : Option Nat
  delay_jitter : Option Nat
  delay_correlation : Option Nat
  delay_distribution : Option String
  loss : Option Nat
  loss_correlation : Option Nat
  dup : Option Nat
  dup_correlation : Option Nat
  corrupt : Option Nat
  corrupt_correlation : Option Nat
deriving DecidableEq, Repr

/-- The empty parameter dictionary `{}` used by `_apply_parameters({},...)`
rollback/clearing calls. -/
def TCParams.empty : TCParams :=
  ⟨none, none, none, none, none, none, none, none, none, none, none⟩

/-- One backend (`netns.iproute.*`) or proxy (`self._slave.*`) call, as
issued by the code in `src/netns/interface.py`. Proxy calls carry a `p`
prefix. `addInterface` is the registration hook `node._add_interface`. -/
inductive Call where
  | pGetIfData (idx : Option Nat)
  | pSetIf (r : IfRecord)
  | pDelIf (idx : Nat)
  | pChangeNetns (idx pid : Nat)
  | getIf (idx : Nat)
  | setIf (r : IfRecord)
  | delIf (idx : Nat)
  | changeNetns (idx pid : Nat)
  | createIfPair (n1 n2 : String)
  | getBridge (idx : Nat)
  | setBridge (r : BrRecord)
  | createBridge (n : String)
  | delBridge (idx : Nat)
  | addBridgePort (b p : Nat)
  | delBridgePort (b p : Nat)
  | setTC (idx : Nat) (p : TCParams)
  | addInterface
deriving DecidableEq, Repr

/-- Calls that read a snapshot from the kernel (backend `get_if`,
`get_bridge` or proxy `get_if_data`). -/
def Call.isFetch : Call → Bool
  | .pGetIfData _ => true
  | .getIf _ => true
  | .getBridge _ => true
  | _ => false

/-- Calls that write interface/bridge attribute state to the kernel
(`set_if` via backend or proxy, `set_bridge`). -/
def Call.isKernelWrite : Call → Bool
  | .pSetIf _ => true
  | .setIf _ => true
  | .setBridge _ => true
  | _ => false

/-- The sparse record built by the attribute setters:
`iface = netns.iproute.interface(index = self.index); setattr(iface, name, value)`. -/
def sparseIf (i : Nat) (n : String) (v : AttrVal) : IfRecord :=
  ⟨some i, [(n, v)]⟩

/-- The sparse bridge record built by `Link.__setattr__`:
`iface = netns.iproute.bridge(index = self.index); setattr(iface, name, value)`. -/
def sparseBr (i : Nat) (n : String) (v : AttrVal) : BrRecord :=
  ⟨some i, [(n, v)]⟩

/-! ## Name generation (`Interface._gen_if_name`, `Link._gen_br_name`) -/

/-- Zero-pad a digit list on the left to a minimum width, the semantics of
the `%.4x` / `%.3x` precision specifiers in the format strings at
`src/netns/interface.py:23` and `:289`. -/
def padHex (w : Nat) (l : List Char) : List Char :=
  List.replicate (w - l.length) '0' ++ l

/-- `Interface._gen_if_name` applied with process id `pid` and counter
value `n` (`Interface._gen_next_id` yields the strictly increasing counter
values 0, 1, 2, ...): `"NETNSif-%.4x%.3x" % (os.getpid(), n)`. -/
def gen_if_name (pid n : Nat) : String :=
  String.mk ("NETNSif-".data ++ padHex 4 (Nat.toDigits 16 pid)
    ++ padHex 3 (Nat.toDigits 16 n))

/-- `Link._gen_br_name`: `"NETNSbr-%.4x%.3x" % (os.getpid(), n)`. -/
def gen_br_name (pid n : Nat) : String :=
  String.mk ("NETNSbr-".data ++ padHex 4 (Nat.toDigits 16 pid)
    ++ padHex 3 (Nat.toDigits 16 n))

/-! ## Kernel interface state and `set_if` application -/

/-- Kernel-side interface attribute state: per interface index, the full
attribute set of that device. -/
abbrev IfKern := List (Nat × Attrs)

/-- Modelled from the spec: the backend/proxy `set_interface(snapshot)`
operation applies the fields *present* in the given record to the kernel
device named by the record's index (a record missing from the kernel is a
backend error; no state change is modelled for it). -/
def applySetIf (kern : IfKern) (r : IfRecord) : IfKern :=
  match r.index with
  | none => kern
  | some i =>
    match alookup kern i with
    | none => kern
    | some cur => aset kern i (mergeAttrs cur r.attrs)

/-- Apply the interface-state effect of a call trace (only `set_if`
calls affect interface attribute state). -/
def applyCallIf (kern : IfKern) : Call → IfKern
  | .setIf r => applySetIf kern r
  | .pSetIf r => applySetIf kern r
  | _ => kern

/-- Apply a whole trace of calls to kernel interface state. -/
def applyCalls (kern : IfKern) (cs : List Call) : IfKern :=
  cs.foldl applyCallIf kern

/-! ## Dynamic attribute access (`NSInterface.__getattr__/__setattr__`,
`ExternalInterface.__getattr__/__setattr__`) -/

/-- `NSInterface.__setattr__` (`src/netns/interface.py:57-63`): a name
starting with `_` is stored on the local object (its `__dict__`, modelled
as `dict`) with no proxy call; any other name builds the sparse record
`interface(index = self.index)` with the single named field set and sends
it through the proxy's `set_if`, storing nothing locally.  Returns the new
local dict and the calls issued. -/
def NSInterface.pySetattr (dict : Attrs) (idx : Nat) (n : String)
    (v : AttrVal) : Attrs × List Call :=
  if n.front = '_' then (aset dict n v, [])
  else (dict, [Call.pSetIf (sparseIf idx n v)])

/-- `NSInterface.__getattr__` semantics combined with Python instance
attribute lookup: a name bound in the instance dict is returned locally;
otherwise `__getattr__` fetches the full snapshot via the proxy
(`self._slave.get_if_data(self.index)`) and returns the named field of the
fetched snapshot. -/
def NSInterface.pyGetattr (dict : Attrs) (idx : Nat) (fetched : Attrs)
    (n : String) : Option AttrVal × List Call :=
  match alookup dict n with
  | some v => (some v, [])
  | none => (alookup fetched n, [Call.pGetIfData (some idx)])

/-- `ExternalInterface.__setattr__` (`src/netns/interface.py:219-225`):
same shape as `NSInterface.__setattr__` but the write goes directly to the
backend's `set_if`. -/
def ExternalInterface.pySetattr (dict : Attrs) (idx : Nat) (n : String)
    (v : AttrVal) : Attrs × List Call :=
  if n.front = '_' then (aset dict n v, [])
  else (dict, [Call.setIf (sparseIf idx n v)])

/-- `ExternalInterface.__getattr__` (`src/netns/interface.py:215-217`)
combined with instance lookup: missing names fetch `get_if(self.index)`
from the backend and return the named field. -/
def ExternalInterface.pyGetattr (dict : Attrs) (idx : Nat) (fetched : Attrs)
    (n : String) : Option AttrVal × List Call :=
  match alookup dict n with
  | some v => (some v, [])
  | none => (alookup fetched n, [Call.getIf idx])

/-- The record that the spec's words for `set_attribute` describe: fetch
the full current snapshot, mutate only the named field, and write the whole
mutated snapshot back.  Stated from the spec for comparison with the
records the code actually writes. -/
def specReadModifyWriteRecord (kern : IfKern) (idx : Nat) (n : String)
    (v : AttrVal) : Option IfRecord :=
  (alookup kern idx).map (fun snapshot => ⟨some idx, aset snapshot n v⟩)

/-- A local dict whose keys all start with `_` (the state of every
interface object: non-underscore names are never stored locally). -/
def onlyUnderscoreKeys (dict : Attrs) : Prop :=
  ∀ k ∈ dict.map Prod.fst, k.front = '_'

instance (dict : Attrs) : Decidable (onlyUnderscoreKeys dict) := by
  unfold onlyUnderscoreKeys; infer_instance

/-! ## `ForeignInterface` (`src/netns/interface.py:266-280`) -/

/-- The object state of a `ForeignInterface`: the adopted device's index
and the `_original_state` snapshot (`None` after a successful destroy). -/
structure FIState where
  idx : Nat
  original_state : Option IfRecord
deriving DecidableEq, Repr

/-- `ForeignInterface.__init__`: `iface = netns.iproute.get_if(iface);
self._original_state = iface.copy()`.  Fails (returns `none`) when the
device does not exist. -/
def ForeignInterface.init (kern : IfKern) (i : Nat) : Option FIState :=
  (alookup kern i).map (fun attrs => ⟨i, some ⟨some i, attrs⟩⟩)

/-- `ForeignInterface.destroy`: if `_original_state` is still set, write it
back via backend `set_if` (which may raise, in which case the snapshot is
kept for a retry); on success or when already destroyed, clear
`_original_state`. -/
def ForeignInterface.destroy (fail : Call → Bool) (s : FIState) :
    FIState × List Call × Bool :=
  match s.original_state with
  | some r =>
    if fail (.setIf r) then (s, [Call.setIf r], true)
    else ({ s with original_state := none }, [Call.setIf r], false)
  | none => ({ s with original_state := none }, [], false)

/-! ## Link (`src/netns/interface.py:284-379`) -/

/-- Kernel traffic-control state: the parameter set currently applied to
each port index (`netns.iproute.set_tc` replaces a port's configuration). -/
abbrev TCState := List (Nat × TCParams)

/-- The kernel-facing network state touched by Link operations: interface
attributes, per-port traffic control, bridge memberships (bridge index,
port index) and bridge attributes. -/
structure NetState where
  ifs : IfKern
  tc : TCState
  bports : List (Nat × Nat)
  bridges : List (Nat × Attrs)
deriving DecidableEq, Repr

/-- `set_bridge` applied to kernel bridge state, same field-merge shape as
`set_if`. -/
def applySetBr (bridges : List (Nat × Attrs)) (r : BrRecord) :
    List (Nat × Attrs) :=
  match r.index with
  | none => bridges
  | some i =>
    match alookup bridges i with
    | none => bridges
    | some cur => aset bridges i (mergeAttrs cur r.attrs)

/-- The Link object's own state: `self._idx` (`None` after destruction),
`self._parameters` and the key set of `self._ports` (the weak dictionary
from control-interface kernel index to the control interface). -/
structure LinkState where
  idx : Option Nat
  parameters : TCParams
  ports : List Nat
deriving DecidableEq, Repr

/-- `Link._apply_parameters(parameters)` over a given port list: call
`set_tc(i.index, **parameters)` on each port in order, raising at the
first failing call (`src/netns/interface.py:377-379`).  Returns the
traffic-control state reached and whether every call succeeded. -/
def Link.apply_parameters (fail : Call → Bool) (ports : List Nat)
    (p : TCParams) (tc : TCState) : TCState × Bool :=
  match ports with
  | [] => (tc, true)
  | i :: r =>
    if fail (.setTC i p) then (tc, false)
    else Link.apply_parameters fail r p (aset tc i p)

/-- `Link.set_parameters` (`src/netns/interface.py:357-375`): build the
parameter dict from the keyword arguments (here passed already as a
`TCParams` record), apply it to every connected port; on failure re-apply
`self._parameters` to every port and re-raise; adopt the new dict only on
full success.  Returns (link, traffic-control state, raised?). -/
def Link.set_parameters (fail : Call → Bool) (l : LinkState) (tc : TCState)
    (parameters : TCParams) : LinkState × TCState × Bool :=
  let r := Link.apply_parameters fail l.ports parameters tc
  if r.2 then ({ l with parameters := parameters }, r.1, false)
  else
    let r2 := Link.apply_parameters fail l.ports l.parameters r.1
    (l, r2.1, true)

/-- Outcome of `Link.connect`: the `assert` precondition failure, an
exception from a backend call, or success; each carries the resulting link
object and kernel state. -/
inductive CResult where
  | precond (l : LinkState) (st : NetState)
  | raised (l : LinkState) (st : NetState)
  | ok (l : LinkState) (st : NetState)
deriving DecidableEq, Repr

/-- The `except` branch of `Link.connect`: `self._apply_parameters({},
iface.control)` then re-raise; if the clearing call itself fails its error
propagates with the port's traffic control unchanged. -/
def Link.connectRollback (fail : Call → Bool) (st : NetState)
    (l : LinkState) (pidx : Nat) : CResult :=
  if fail (.setTC pidx TCParams.empty) then .raised l st
  else .raised l { st with tc := aset st.tc pidx TCParams.empty }

/-- `Link.connect(iface)` (`src/netns/interface.py:339-349`), taking
`pidx = iface.control.index`: assert the index is not already a port of
*this* link; apply this link's current parameters to the port and add it
to the bridge (clearing the port's shaping and re-raising on failure);
then synchronize the port's `up` and `mtu` to the bridge's current values
(each read is a `get_bridge` fetch through `Link.__getattr__`, each write
a sparse backend `set_if`); finally register the port in `self._ports`. -/
def Link.connect (fail : Call → Bool) (st : NetState) (l : LinkState)
    (pidx : Nat) : CResult :=
  if pidx ∈ l.ports then .precond l st
  else
    if fail (.setTC pidx l.parameters) then Link.connectRollback fail st l pidx
    else
      let st1 := { st with tc := aset st.tc pidx l.parameters }
      match l.idx with
      | none => Link.connectRollback fail st1 l pidx
      | some b =>
        if fail (.addBridgePort b pidx) then Link.connectRollback fail st1 l pidx
        else
          let st2 := { st1 with bports := (b, pidx) :: st1.bports }
          if fail (.getBridge b) then .raised l st2
          else
            match alookup st2.bridges b with
            | none => .raised l st2
            | some battrs =>
              match alookup battrs "up" with
              | none => .raised l st2
              | some upv =>
                if fail (.setIf (sparseIf pidx "up" upv)) then .raised l st2
                else
                  let st3 := { st2 with
                    ifs := applySetIf st2.ifs (sparseIf pidx "up" upv) }
                  if fail (.getBridge b) then .raised l st3
                  else
                    match alookup battrs "mtu" with
                    | none => .raised l st3
                    | some mtuv =>
                      if fail (.setIf (sparseIf pidx "mtu" mtuv)) then
                        .raised l st3
                      else
                        let st4 := { st3 with
                          ifs := applySetIf st3.ifs (sparseIf pidx "mtu" mtuv) }
                        .ok { l with ports := pidx :: l.ports } st4

/-- Outcome of `Link.disconnect`. -/
inductive DResult where
  | precond (l : LinkState) (st : NetState)
  | raised (l : LinkState) (st : NetState)
  | ok (l : LinkState) (st : NetState)
deriving DecidableEq, Repr

/-- `Link.disconnect(iface)` (`src/netns/interface.py:351-355`), taking
`pidx = iface.control.index`: assert membership in `self._ports`, remove
the bridge membership, clear the port's traffic control, and only then
delete the port from `self._ports`.  There is no exception handler: a
failure in either backend call propagates and the statements after it do
not run.  Also returns the calls issued. -/
def Link.disconnect (fail : Call → Bool) (st : NetState) (l : LinkState)
    (pidx : Nat) : DResult × List Call :=
  if pidx ∈ l.ports then
    match l.idx with
    | none => (.raised l st, [])
    | some b =>
      if fail (.delBridgePort b pidx) then (.raised l st, [Call.delBridgePort b pidx])
      else
        let st1 := { st with bports := st.bports.filter (fun q => q ≠ (b, pidx)) }
        if fail (.setTC pidx TCParams.empty) then
          (.raised l st1, [Call.delBridgePort b pidx, Call.setTC pidx TCParams.empty])
        else
          (.ok { l with ports := l.ports.filter (· ≠ pidx) }
            { st1 with tc := aset st1.tc pidx TCParams.empty },
           [Call.delBridgePort b pidx, Call.setTC pidx TCParams.empty])
  else (.precond l st, [])

/-- `Link.__setattr__` (`src/netns/interface.py:310-321`): a name starting
with `_` is stored on the local object with no kernel call; otherwise, for
`up` and `mtu` the same value is first set on every connected port (a
sparse backend `set_if` per port), and then the bridge's own attribute is
set via a sparse `set_bridge`.  Nothing is stored locally for
non-underscore names.  Call-trace semantics (the calls issued when every
call succeeds). -/
def Link.pySetattr (dict : Attrs) (bidx : Nat) (ports : List Nat)
    (n : String) (v : AttrVal) : Attrs × List Call :=
  if n.front = '_' then (aset dict n v, [])
  else
    let portCalls :=
      if n = "up" ∨ n = "mtu" then
        ports.map (fun p => Call.setIf (sparseIf p n v))
      else []
    (dict, portCalls ++ [Call.setBridge (sparseBr bidx n v)])

/-- `Link.__getattr__` (`src/netns/interface.py:306-308`) combined with
instance lookup: missing names fetch `get_bridge(self.index)` and return
the named field of the fetched snapshot. -/
def Link.pyGetattr (dict : Attrs) (bidx : Nat) (fetched : Attrs)
    (n : String) : Option AttrVal × List Call :=
  match alookup dict n with
  | some v => (some v, [])
  | none => (alookup fetched n, [Call.getBridge bidx])

/-- The port loop of `self.up = False` inside `Link.destroy`: set the
attribute on each connected port in order via sparse backend `set_if`,
stopping at (and propagating) the first failure. -/
def Link.setIfPorts (fail : Call → Bool) (ports : List Nat) (n : String)
    (v : AttrVal) (ifs : IfKern) : IfKern × List Call × Bool :=
  match ports with
  | [] => (ifs, [], false)
  | p :: r =>
    if fail (.setIf (sparseIf p n v)) then (ifs, [Call.setIf (sparseIf p n v)], true)
    else
      let rest := Link.setIfPorts fail r n v (applySetIf ifs (sparseIf p n v))
      (rest.1, Call.setIf (sparseIf p n v) :: rest.2.1, rest.2.2)

/-- The port teardown loop of `Link.destroy`
(`src/netns/interface.py:330-334`): `self.disconnect(p)` for every port of
the snapshot taken at loop entry, with every exception (including the
membership assertion) swallowed by `except: pass`. -/
def Link.destroyLoop (fail : Call → Bool) (snapshot : List Nat)
    (st : NetState) (l : LinkState) : NetState × LinkState × List Call :=
  match snapshot with
  | [] => (st, l, [])
  | p :: r =>
    let d := Link.disconnect fail st l p
    let next :=
      match d.1 with
      | .precond l' st' => (st', l')
      | .raised l' st' => (st', l')
      | .ok l' st' => (st', l')
    let rest := Link.destroyLoop fail r next.1 next.2
    (rest.1, rest.2.1, d.2 ++ rest.2.2)

/-- `Link.destroy` (`src/netns/interface.py:326-337`): return immediately
when `self.index` is falsy (`None`, or the integer 0); otherwise set
`self.up = False` (ports first, then the bridge — an exception here
propagates), disconnect every port best-effort, clear `self._ports`,
delete the bridge (an exception here propagates with the index still set),
and finally invalidate `self._idx`.  Returns (kernel state, link, calls,
raised?). -/
def Link.destroy (fail : Call → Bool) (st : NetState) (l : LinkState) :
    NetState × LinkState × List Call × Bool :=
  match l.idx with
  | none => (st, l, [], false)
  | some b =>
    if b = 0 then (st, l, [], false)
    else
      let r1 := Link.setIfPorts fail l.ports "up" (AttrVal.bool false) st.ifs
      let st1 := { st with ifs := r1.1 }
      if r1.2.2 then (st1, l, r1.2.1, true)
      else
        let cbr := Call.setBridge (sparseBr b "up" (AttrVal.bool false))
        if fail cbr then (st1, l, r1.2.1 ++ [cbr], true)
        else
          let st2 := { st1 with
            bridges := applySetBr st1.bridges (sparseBr b "up" (AttrVal.bool false)) }
          let r3 := Link.destroyLoop fail l.ports st2 l
          let l4 := { r3.2.1 with ports := [] }
          if fail (.delBridge b) then
            (r3.1, l4, r1.2.1 ++ [cbr] ++ r3.2.2 ++ [Call.delBridge b], true)
          else
            ({ r3.1 with bridges := r3.1.bridges.filter (fun q => q.1 ≠ b) },
             { l4 with idx := none },
             r1.2.1 ++ [cbr] ++ r3.2.2 ++ [Call.delBridge b], false)

/-! ## Namespace-interface lifecycle (`destroy` of each variant) -/

/-- Object state of `NodeInterface` and `P2PInterface`: the liveness
reference `self._slave` (modelled as a flag) and the kernel index. -/
structure NIState where
  slave : Bool
  idx : Nat
deriving DecidableEq, Repr

/-- `NodeInterface.destroy` (`src/netns/interface.py:121-125`): guarded by
`self._slave`; fetch the namespace's interface table via the proxy, delete
the namespace-side handle if still present, then clear the liveness
reference.  `nsIfs` is the set of indices the proxy reports. -/
def NodeInterface.destroy (fail : Call → Bool) (nsIfs : List Nat)
    (s : NIState) : NIState × List Call × Bool :=
  if s.slave then
    if fail (.pGetIfData none) then (s, [Call.pGetIfData none], true)
    else if s.idx ∈ nsIfs then
      if fail (.pDelIf s.idx) then (s, [Call.pGetIfData none, Call.pDelIf s.idx], true)
      else ({ s with slave := false }, [Call.pGetIfData none, Call.pDelIf s.idx], false)
    else ({ s with slave := false }, [Call.pGetIfData none], false)
  else (s, [], false)

/-- `P2PInterface.destroy` (`src/netns/interface.py:160-164`), textually
the same logic as `NodeInterface.destroy`. -/
def P2PInterface.destroy (fail : Call → Bool) (nsIfs : List Nat)
    (s : NIState) : NIState × List Call × Bool :=
  if s.slave then
    if fail (.pGetIfData none) then (s, [Call.pGetIfData none], true)
    else if s.idx ∈ nsIfs then
      if fail (.pDelIf s.idx) then (s, [Call.pGetIfData none, Call.pDelIf s.idx], true)
      else ({ s with slave := false }, [Call.pGetIfData none, Call.pDelIf s.idx], false)
    else ({ s with slave := false }, [Call.pGetIfData none], false)
  else (s, [], false)

/-- Object state of `ForeignNodeInterface` and `ImportedNodeInterface`:
liveness reference, kernel index, and the `_original_state` snapshot. -/
structure FNIState where
  slave : Bool
  idx : Nat
  original_state : IfRecord
deriving DecidableEq, Repr

/-- `ForeignNodeInterface.destroy` (`src/netns/interface.py:177-181`): if
live and the device is still present in the namespace, restore the
original snapshot via the proxy; clear the liveness reference. -/
def ForeignNodeInterface.destroy (fail : Call → Bool) (nsIfs : List Nat)
    (s : FNIState) : FNIState × List Call × Bool :=
  if s.slave then
    if fail (.pGetIfData none) then (s, [Call.pGetIfData none], true)
    else if s.idx ∈ nsIfs then
      if fail (.pSetIf s.original_state) then
        (s, [Call.pGetIfData none, Call.pSetIf s.original_state], true)
      else
        ({ s with slave := false },
         [Call.pGetIfData none, Call.pSetIf s.original_state], false)
    else ({ s with slave := false }, [Call.pGetIfData none], false)
  else (s, [], false)

/-- `ImportedNodeInterface.destroy` (`src/netns/interface.py:199-205`): if
live, migrate the device back to the main namespace when it is still
inside the namespace, then restore the original snapshot via the backend,
then clear the liveness reference.  `mypid` is `os.getpid()`. -/
def ImportedNodeInterface.destroy (fail : Call → Bool) (nsIfs : List Nat)
    (mypid : Nat) (s : FNIState) : FNIState × List Call × Bool :=
  if s.slave then
    if fail (.pGetIfData none) then (s, [Call.pGetIfData none], true)
    else if s.idx ∈ nsIfs then
      if fail (.pChangeNetns s.idx mypid) then
        (s, [Call.pGetIfData none, Call.pChangeNetns s.idx mypid], true)
      else if fail (.setIf s.original_state) then
        (s, [Call.pGetIfData none, Call.pChangeNetns s.idx mypid,
             Call.setIf s.original_state], true)
      else
        ({ s with slave := false },
         [Call.pGetIfData none, Call.pChangeNetns s.idx mypid,
          Call.setIf s.original_state], false)
    else if fail (.setIf s.original_state) then
      (s, [Call.pGetIfData none, Call.setIf s.original_state], true)
    else
      ({ s with slave := false },
       [Call.pGetIfData none, Call.setIf s.original_state], false)
  else (s, [], false)

/-- Object state of `SlaveInterface`: just its kernel index. -/
structure SlaveState where
  idx : Nat
deriving DecidableEq, Repr

/-- `SlaveInterface.destroy` (`src/netns/interface.py:263-264`): `pass` —
a deliberate no-op on every call. -/
def SlaveInterface.destroy (s : SlaveState) : SlaveState × List Call × Bool :=
  (s, [], false)

/-! ## `NodeInterface.__init__` (`src/netns/interface.py:102-115`) -/

/-- The backend's view of existing interfaces for pair creation: the
resolvable handles (index, name) and which indices form veth pairs. -/
structure VethKern where
  ifs : List (Nat × String)
  pairs : List (Nat × Nat)
deriving DecidableEq, Repr

/-- A kernel index not yet in use. -/
def VethKern.freshIdx (k : VethKern) : Nat :=
  (k.ifs.map Prod.fst).foldr max 0 + 1

/-- `netns.iproute.create_if_pair(if1, if2)`: create a veth pair under the
two given names, returning the two new handles (control end first). -/
def VethKern.create_if_pair (k : VethKern) (n1 n2 : String) :
    VethKern × Nat × Nat :=
  let i1 := k.freshIdx
  let i2 := i1 + 1
  (⟨(i1, n1) :: (i2, n2) :: k.ifs, (i1, i2) :: k.pairs⟩, i1, i2)

/-- The peers a given index is paired with. -/
def VethKern.peersOf (k : VethKern) (i : Nat) : List Nat :=
  k.pairs.filterMap (fun q =>
    if q.1 = i then some q.2 else if q.2 = i then some q.1 else none)

/-- Modelled from the spec: `netns.iproute.del_if` on one end of a veth
pair — "the other interface should go away automatically", veth pairs are
deleted together — removes the given handle and its paired peer. -/
def VethKern.del_if (k : VethKern) (i : Nat) : VethKern :=
  let dead := i :: k.peersOf i
  ⟨k.ifs.filter (fun e => e.1 ∉ dead),
   k.pairs.filter (fun q => q.1 ∉ dead ∧ q.2 ∉ dead)⟩

/-- Outcome of `NodeInterface.__init__`: on success the kernel state, the
control and namespace-side indices and the calls; on an exception the
kernel state and calls up to the raise. -/
inductive InitResult where
  | ok (k : VethKern) (ctl ns : Nat) (calls : List Call)
  | raised (k : VethKern) (calls : List Call)
deriving DecidableEq, Repr

/-- `NodeInterface.__init__(node)` with `pid = node.pid`, `mypid =
os.getpid()` and `counter` the current value of `Interface._nextid`:
generate two names, create the veth pair, migrate the second end into the
target namespace; on migration failure delete the control handle (which
takes the paired end with it) and re-raise; on success wrap the control
end and register with the node (`node._add_interface`). -/
def NodeInterface.init (fail : Call → Bool) (k : VethKern) (pid : Nat)
    (mypid : Nat) (counter : Nat) : InitResult :=
  let n1 := gen_if_name mypid counter
  let n2 := gen_if_name mypid (counter + 1)
  if fail (.createIfPair n1 n2) then .raised k [Call.createIfPair n1 n2]
  else
    let c := k.create_if_pair n1 n2
    if fail (.changeNetns c.2.2 pid) then
      if fail (.delIf c.2.1) then
        .raised c.1 [Call.createIfPair n1 n2, Call.changeNetns c.2.2 pid,
                     Call.delIf c.2.1]
      else
        .raised (c.1.del_if c.2.1)
          [Call.createIfPair n1 n2, Call.changeNetns c.2.2 pid,
           Call.delIf c.2.1]
    else
      .ok c.1 c.2.1 c.2.2
        [Call.createIfPair n1 n2, Call.changeNetns c.2.2 pid,
         Call.addInterface]

/-! ## Result accessors -/

/-- The link object carried by a `Link.connect` outcome. -/
def CResult.link : CResult → LinkState
  | .precond l _ => l
  | .raised l _ => l
  | .ok l _ => l

/-- Whether a `Link.connect` outcome is a success. -/
def CResult.isOk : CResult → Bool
  | .ok _ _ => true
  | _ => false

/-- The link object carried by a `Link.disconnect` outcome. -/
def DResult.link : DResult → LinkState
  | .precond l _ => l
  | .raised l _ => l
  | .ok l _ => l

/-! ## C8 — name generation -/

/-- C8: the claim says every generated name is at most 15 characters long.
The generator's own comment (`# Max 15 chars`) promises the same, but the
`%.4x`/`%.3x` precision specifiers only pad, they never truncate: as soon
as the process-wide counter reaches 0x1000 (the 4097th name generated in
one process), the counter field is 4 hex digits and the name is 16
characters — here evaluated for pid 100, counter 4096.  (The pid field
overflows the same way for pids above 0xffff, e.g.
`gen_if_name 65536 0`.) -/
theorem C8_name_length_exceeded :
    (gen_if_name 100 4096).length = 16 ∧ (gen_if_name 65536 0).length = 16 := by
  constructor <;> rfl

/-! ## C4 — attribute writes are sparse, not read-modify-write -/

/-- Kernel interface state used as the concrete C4 scenario: one device,
index 3, with attributes name "eth0", mtu 1500, up true. -/
def C4kern : IfKern :=
  [(3, [("name", AttrVal.str "eth0"), ("mtu", AttrVal.nat 1500),
        ("up", AttrVal.bool true)])]

/-- C4 counterexample: setting `mtu` on interface 3 issues exactly one
sparse `set_if` carrying only the index and the named field, with no fetch
anywhere in the trace — whereas the claim's read-modify-write protocol
would first fetch and then write back the whole mutated snapshot (computed
here from `C4kern` via `specReadModifyWriteRecord`), a different record.
Both the namespace (`NSInterface`) and main-namespace
(`ExternalInterface`) setters behave this way. -/
theorem C4_counterexample :
    NSInterface.pySetattr [] 3 "mtu" (AttrVal.nat 9000)
      = ([], [Call.pSetIf (sparseIf 3 "mtu" (AttrVal.nat 9000))])
    ∧ ExternalInterface.pySetattr [] 3 "mtu" (AttrVal.nat 9000)
      = ([], [Call.setIf (sparseIf 3 "mtu" (AttrVal.nat 9000))])
    ∧ (∀ c ∈ (NSInterface.pySetattr [] 3 "mtu" (AttrVal.nat 9000)).2,
        c.isFetch = false)
    ∧ (∀ c ∈ (ExternalInterface.pySetattr [] 3 "mtu" (AttrVal.nat 9000)).2,
        c.isFetch = false)
    ∧ specReadModifyWriteRecord C4kern 3 "mtu" (AttrVal.nat 9000)
      = some ⟨some 3, [("name", AttrVal.str "eth0"), ("mtu", AttrVal.nat 9000),
                       ("up", AttrVal.bool true)]⟩
    ∧ sparseIf 3 "mtu" (AttrVal.nat 9000)
      ≠ (⟨some 3, [("name", AttrVal.str "eth0"), ("mtu", AttrVal.nat 9000),
                   ("up", AttrVal.bool true)]⟩ : IfRecord) := by
  decide

/-- C4 (amended): setting a non-underscore attribute on a namespace or
main-namespace interface performs no fetch at all; it builds a fresh
record holding only the kernel index and the named field and issues a
single `set_if` write of that sparse record (via the proxy for namespace
interfaces, directly to the backend for main-namespace ones), storing
nothing on the local object. -/
theorem C4_setattr_sparse_write (dict : Attrs) (idx : Nat) (n : String)
    (v : AttrVal) (h : ¬ n.front = '_') :
    NSInterface.pySetattr dict idx n v
      = (dict, [Call.pSetIf (sparseIf idx n v)])
    ∧ ExternalInterface.pySetattr dict idx n v
      = (dict, [Call.setIf (sparseIf idx n v)])
    ∧ (∀ c ∈ (NSInterface.pySetattr dict idx n v).2, c.isFetch = false)
    ∧ (∀ c ∈ (ExternalInterface.pySetattr dict idx n v).2, c.isFetch = false) := by
  unfold NSInterface.pySetattr ExternalInterface.pySetattr
  rw [if_neg h, if_neg h]
  refine ⟨rfl, rfl, ?_, ?_⟩ <;>
    · intro c hc
      simp only [List.mem_singleton] at hc
      subst hc
      rfl

/-- C4 witness: the amended theorem applied at the concrete input of the
counterexample scenario. -/
theorem C4_setattr_sparse_write_witness :
    ¬ ("mtu".front = '_')
    ∧ (NSInterface.pySetattr [] 3 "mtu" (AttrVal.nat 9000)
        = ([], [Call.pSetIf (sparseIf 3 "mtu" (AttrVal.nat 9000))])
      ∧ ExternalInterface.pySetattr [] 3 "mtu" (AttrVal.nat 9000)
        = ([], [Call.setIf (sparseIf 3 "mtu" (AttrVal.nat 9000))])
      ∧ (∀ c ∈ (NSInterface.pySetattr [] 3 "mtu" (AttrVal.nat 9000)).2,
          c.isFetch = false)
      ∧ (∀ c ∈ (ExternalInterface.pySetattr [] 3 "mtu" (AttrVal.nat 9000)).2,
          c.isFetch = false)) :=
  ⟨by decide, C4_setattr_sparse_write [] 3 "mtu" (AttrVal.nat 9000) (by decide)⟩

/-! ## C10 — underscore names are local, everything else hits the kernel -/

theorem mem_keys_aset {α β : Type} [DecidableEq α] (l : List (α × β))
    (a : α) (b : β) (k : α) (h : k ∈ (aset l a b).map Prod.fst) :
    k = a ∨ k ∈ l.map Prod.fst := by
  induction l with
  | nil =>
    simp only [aset, List.map_cons, List.map_nil, List.mem_singleton] at h
    exact Or.inl h
  | cons hd tl ih =>
    obtain ⟨x, y⟩ := hd
    by_cases hx : x = a
    · rw [aset, if_pos hx] at h
      simp only [List.map_cons, List.mem_cons] at h ⊢
      rcases h with h | h
      · exact Or.inr (Or.inl h)
      · exact Or.inr (Or.inr h)
    · rw [aset, if_neg hx] at h
      simp only [List.map_cons, List.mem_cons] at h ⊢
      rcases h with h | h
      · exact Or.inr (Or.inl h)
      · rcases ih h with h2 | h2
        · exact Or.inl h2
        · exact Or.inr (Or.inr h2)

theorem alookup_eq_none_of_underscore_free (dict : Attrs) (n : String)
    (hd : onlyUnderscoreKeys dict) (hn : ¬ n.front = '_') :
    alookup dict n = none := by
  apply alookup_eq_none_of_not_mem
  intro hmem
  exact hn (hd n hmem)

/-- C10: assigning to an attribute whose name begins with `_` mutates only
the local object dict and issues no backend or proxy call; assigning to
any other name issues kernel writes (`set_if` per affected object, plus
`set_bridge` for Links) and stores nothing locally; and since non-
underscore names never enter the local dict, reading a non-underscore
attribute always goes through `__getattr__`, i.e. re-fetches the snapshot
from the kernel — no attribute value is cached locally.  Covers
`NSInterface`, `ExternalInterface`, and `Link`. -/
theorem C10_attribute_dispatch (dict fetched : Attrs) (idx bidx : Nat)
    (ports : List Nat) (un n : String) (v : AttrVal)
    (hu : un.front = '_') (hn : ¬ n.front = '_')
    (hd : onlyUnderscoreKeys dict) :
    (NSInterface.pySetattr dict idx un v = (aset dict un v, [])
      ∧ ExternalInterface.pySetattr dict idx un v = (aset dict un v, [])
      ∧ Link.pySetattr dict bidx ports un v = (aset dict un v, []))
    ∧ ((NSInterface.pySetattr dict idx n v).1 = dict
      ∧ (NSInterface.pySetattr dict idx n v).2 = [Call.pSetIf (sparseIf idx n v)]
      ∧ (ExternalInterface.pySetattr dict idx n v).1 = dict
      ∧ (ExternalInterface.pySetattr dict idx n v).2 = [Call.setIf (sparseIf idx n v)]
      ∧ (Link.pySetattr dict bidx ports n v).1 = dict
      ∧ (Link.pySetattr dict bidx ports n v).2 ≠ []
      ∧ (∀ c ∈ (NSInterface.pySetattr dict idx n v).2, c.isKernelWrite = true)
      ∧ (∀ c ∈ (ExternalInterface.pySetattr dict idx n v).2, c.isKernelWrite = true)
      ∧ (∀ c ∈ (Link.pySetattr dict bidx ports n v).2, c.isKernelWrite = true))
    ∧ (NSInterface.pyGetattr dict idx fetched n
        = (alookup fetched n, [Call.pGetIfData (some idx)])
      ∧ ExternalInterface.pyGetattr dict idx fetched n
        = (alookup fetched n, [Call.getIf idx])
      ∧ Link.pyGetattr dict bidx fetched n
        = (alookup fetched n, [Call.getBridge bidx]))
    ∧ (onlyUnderscoreKeys (NSInterface.pySetattr dict idx un v).1
      ∧ onlyUnderscoreKeys (NSInterface.pySetattr dict idx n v).1
      ∧ onlyUnderscoreKeys (Link.pySetattr dict bidx ports n v).1) := by
  have hnone : alookup dict n = none :=
    alookup_eq_none_of_underscore_free dict n hd hn
  refine ⟨⟨?_, ?_, ?_⟩, ⟨?_, ?_, ?_, ?_, ?_, ?_, ?_, ?_, ?_⟩, ⟨?_, ?_, ?_⟩,
    ?_, ?_, ?_⟩
  · rw [NSInterface.pySetattr, if_pos hu]
  · rw [ExternalInterface.pySetattr, if_pos hu]
  · rw [Link.pySetattr, if_pos hu]
  · rw [NSInterface.pySetattr, if_neg hn]
  · rw [NSInterface.pySetattr, if_neg hn]
  · rw [ExternalInterface.pySetattr, if_neg hn]
  · rw [ExternalInterface.pySetattr, if_neg hn]
  · rw [Link.pySetattr, if_neg hn]
  · rw [Link.pySetattr, if_neg hn]
    simp
  · rw [NSInterface.pySetattr, if_neg hn]
    intro c hc
    simp only [List.mem_singleton] at hc
    subst hc
    rfl
  · rw [ExternalInterface.pySetattr, if_neg hn]
    intro c hc
    simp only [List.mem_singleton] at hc
    subst hc
    rfl
  · rw [Link.pySetattr, if_neg hn]
    intro c hc
    simp only [List.mem_append, List.mem_singleton] at hc
    rcases hc with hc | hc
    · by_cases hb : n = "up" ∨ n = "mtu"
      · rw [if_pos hb] at hc
        simp only [List.mem_map] at hc
        obtain ⟨p, _, hp⟩ := hc
        subst hp
        rfl
      · rw [if_neg hb] at hc
        cases hc
    · subst hc
      rfl
  · rw [NSInterface.pyGetattr, hnone]
  · rw [ExternalInterface.pyGetattr, hnone]
  · rw [Link.pyGetattr, hnone]
  · rw [NSInterface.pySetattr, if_pos hu]
    intro k hk
    rcases mem_keys_aset dict un v k hk with h | h
    · subst h; exact hu
    · exact hd k h
  · rw [NSInterface.pySetattr, if_neg hn]
    exact hd
  · rw [Link.pySetattr, if_neg hn]
    exact hd

/-- C10 witness: the dispatch theorem applied at a concrete local dict
(underscore keys only), the underscore name `_slave`, and the kernel
attribute `mtu`. -/
theorem C10_attribute_dispatch_witness :
    ("_slave".front = '_' ∧ ¬ ("mtu".front = '_')
      ∧ onlyUnderscoreKeys [("_idx", AttrVal.nat 3)])
    ∧ ((NSInterface.pySetattr [("_idx", AttrVal.nat 3)] 3 "mtu"
          (AttrVal.nat 9000)).1 = [("_idx", AttrVal.nat 3)]
      ∧ NSInterface.pyGetattr [("_idx", AttrVal.nat 3)] 3
          [("mtu", AttrVal.nat 1500)] "mtu"
        = (some (AttrVal.nat 1500), [Call.pGetIfData (some 3)])) :=
  ⟨⟨by decide, by decide, by decide⟩,
   (C10_attribute_dispatch [("_idx", AttrVal.nat 3)] [("mtu", AttrVal.nat 1500)]
      3 7 [5] "_slave" "mtu" (AttrVal.nat 9000) (by decide) (by decide)
      (by decide)).2.1.1,
   by
    have h := (C10_attribute_dispatch [("_idx", AttrVal.nat 3)]
      [("mtu", AttrVal.nat 1500)] 3 7 [5] "_slave" "mtu" (AttrVal.nat 9000)
      (by decide) (by decide) (by decide)).2.2.1.1
    rw [h]
    decide⟩

/-! ## C3 — port exclusivity is only enforced against the same Link -/

/-- C3 scenario: control interface 5 is already a port of bridge 100
(link `C3l1`), and bridge 200 (link `C3l2`) has no ports yet. -/
def C3st : NetState :=
  ⟨[(5, [("up", AttrVal.bool true), ("mtu", AttrVal.nat 1500)])],
   [], [(100, 5)],
   [(100, [("up", AttrVal.bool true), ("mtu", AttrVal.nat 1500)]),
    (200, [("up", AttrVal.bool false), ("mtu", AttrVal.nat 9000)])]⟩

/-- Link that already holds control-interface index 5 as a port. -/
def C3l1 : LinkState := ⟨some 100, TCParams.empty, [5]⟩

/-- A second Link with no ports. -/
def C3l2 : LinkState := ⟨some 200, TCParams.empty, []⟩

/-- C3 counterexample: with index 5 already a port of `C3l1`, connecting
it to the *other* link `C3l2` does not fail with a precondition error —
the `assert` only consults the target link's own `_ports` — it succeeds,
after which index 5 is a port of both links at once, violating the claimed
at-most-one-Link invariant. -/
theorem C3_counterexample :
    5 ∈ C3l1.ports
    ∧ (Link.connect (fun _ => false) C3st C3l2 5).isOk = true
    ∧ 5 ∈ (Link.connect (fun _ => false) C3st C3l2 5).link.ports := by
  decide

/-- C3 (amended): connecting a control interface twice to the *same* Link
fails with a precondition error (`assert iface.control.index not in
self._ports`) before any backend call, leaving the Link's port map and all
kernel state unchanged; the check consults only the target Link's own
ports, so the same index can become a port of two different Links. -/
theorem C3_connect_same_link_precondition (fail : Call → Bool)
    (st : NetState) (l : LinkState) (pidx : Nat) (h : pidx ∈ l.ports) :
    Link.connect fail st l pidx = CResult.precond l st := by
  rw [Link.connect, if_pos h]

/-- C3 witness: the amended precondition theorem applied to the concrete
double-connect on `C3l1`. -/
theorem C3_connect_same_link_precondition_witness :
    5 ∈ C3l1.ports
    ∧ Link.connect (fun _ => false) C3st C3l1 5 = CResult.precond C3l1 C3st :=
  ⟨by decide,
   C3_connect_same_link_precondition (fun _ => false) C3st C3l1 5 (by decide)⟩

/-! ## C7 — disconnect does not deregister when the tc clear fails -/

/-- Parameter set applied to port 5 in the C7 scenario. -/
def C7P : TCParams :=
  { TCParams.empty with delay := some 10 }

/-- Oracle for C7: only the traffic-control clearing call on port 5
fails. -/
def C7fail : Call → Bool :=
  fun c => decide (c = Call.setTC 5 TCParams.empty)

/-- C7 scenario: port 5 is a member of bridge 100 with parameters `C7P`
applied. -/
def C7st : NetState := ⟨[], [(5, C7P)], [(100, 5)], []⟩

/-- The C7 link: bridge 100 with port 5. -/
def C7l : LinkState := ⟨some 100, C7P, [5]⟩

/-- C7 counterexample: when clearing the traffic-control shaping fails,
`disconnect` raises after removing the bridge membership, and — contrary
to the claim — the port is *not* removed from the Link's ports map:
`del self._ports[...]` comes after the `set_tc` call and there is no
exception handler around it. -/
theorem C7_counterexample :
    Link.disconnect C7fail C7st C7l 5
      = (DResult.raised C7l ⟨[], [(5, C7P)], [], []⟩,
         [Call.delBridgePort 100 5, Call.setTC 5 TCParams.empty])
    ∧ 5 ∈ (Link.disconnect C7fail C7st C7l 5).1.link.ports := by
  decide

/-- C7 (amended): for a port present in `ports`, `disconnect` first
removes the bridge membership; it then clears the traffic-control shaping
on the port, and only if that also succeeds is the port removed from the
Link's ports map.  If the shaping clear fails, the error propagates and
the port is still registered in `ports` (deregistration is not
best-effort). -/
theorem C7_disconnect_deregisters_only_on_success (fail : Call → Bool)
    (st : NetState) (l : LinkState) (pidx b : Nat)
    (hmem : pidx ∈ l.ports) (hidx : l.idx = some b)
    (hdel : fail (Call.delBridgePort b pidx) = false) :
    (fail (Call.setTC pidx TCParams.empty) = true →
      Link.disconnect fail st l pidx
        = (DResult.raised l
            { st with bports := st.bports.filter (fun q => q ≠ (b, pidx)) },
           [Call.delBridgePort b pidx, Call.setTC pidx TCParams.empty]))
    ∧ (fail (Call.setTC pidx TCParams.empty) = false →
      Link.disconnect fail st l pidx
        = (DResult.ok { l with ports := l.ports.filter (· ≠ pidx) }
            { st with bports := st.bports.filter (fun q => q ≠ (b, pidx)),
                      tc := aset st.tc pidx TCParams.empty },
           [Call.delBridgePort b pidx, Call.setTC pidx TCParams.empty])) := by
  rw [Link.disconnect, if_pos hmem, hidx]
  constructor
  · intro htc
    simp [hdel, htc]
  · intro htc
    simp [hdel, htc]

/-- C7 witness: the amended theorem at the concrete C7 scenario, once with
the failing tc-clear oracle and once with the all-success oracle. -/
theorem C7_disconnect_deregisters_only_on_success_witness :
    (5 ∈ C7l.ports ∧ C7l.idx = some 100
      ∧ C7fail (Call.delBridgePort 100 5) = false
      ∧ C7fail (Call.setTC 5 TCParams.empty) = true)
    ∧ Link.disconnect C7fail C7st C7l 5
        = (DResult.raised C7l ⟨[], [(5, C7P)], [], []⟩,
           [Call.delBridgePort 100 5, Call.setTC 5 TCParams.empty]) :=
  ⟨⟨by decide, by decide, by decide, by decide⟩,
   by
    have h := (C7_disconnect_deregisters_only_on_success C7fail C7st C7l 5 100
      (by decide) (by decide) (by decide)).1 (by decide)
    rw [h]
    decide⟩

/-! ## C1 — `set_parameters` rollback -/

theorem apply_parameters_not_mem (fail : Call → Bool) (p : TCParams)
    (j : Nat) :
    ∀ (ports : List Nat) (tc : TCState), j ∉ ports →
      alookup (Link.apply_parameters fail ports p tc).1 j = alookup tc j := by
  intro ports
  induction ports with
  | nil => intro tc _; rfl
  | cons i r ih =>
    intro tc hj
    simp only [List.mem_cons] at hj
    push_neg at hj
    rw [Link.apply_parameters]
    by_cases hf : fail (Call.setTC i p) = true
    · rw [if_pos hf]
    · rw [if_neg hf, ih (aset tc i p) hj.2,
        alookup_aset_other tc i j p hj.1]

theorem apply_parameters_mem (fail : Call → Bool) (p : TCParams) :
    ∀ (ports : List Nat) (tc : TCState),
      (Link.apply_parameters fail ports p tc).2 = true →
      ∀ j ∈ ports, alookup (Link.apply_parameters fail ports p tc).1 j = some p := by
  intro ports
  induction ports with
  | nil =>
    intro tc _ j hj
    cases hj
  | cons i r ih =>
    intro tc hok j hj
    rw [Link.apply_parameters] at hok ⊢
    by_cases hf : fail (Call.setTC i p) = true
    · rw [if_pos hf] at hok
      simp at hok
    · rw [if_neg hf] at hok ⊢
      rcases List.mem_cons.mp hj with hji | hjr
      · subst hji
        by_cases hjr2 : j ∈ r
        · exact ih (aset tc j p) hok j hjr2
        · rw [apply_parameters_not_mem fail p j r (aset tc j p) hjr2,
            alookup_aset_self]
      · exact ih (aset tc i p) hok j hjr

theorem apply_parameters_ok (fail : Call → Bool) (p : TCParams) :
    ∀ (ports : List Nat) (tc : TCState),
      (∀ i ∈ ports, fail (Call.setTC i p) = false) →
      (Link.apply_parameters fail ports p tc).2 = true := by
  intro ports
  induction ports with
  | nil => intro tc _; rfl
  | cons i r ih =>
    intro tc h
    have hi : fail (Call.setTC i p) = false := h i (List.mem_cons_self i r)
    rw [Link.apply_parameters, if_neg (by rw [hi]; exact Bool.false_ne_true)]
    exact ih (aset tc i p) (fun j hj => h j (List.mem_cons_of_mem i hj))

/-- C1: `set_parameters` applies the new parameter dict to every currently
connected port and adopts it only on full success; if application fails
partway, it re-applies the previous dict `self._parameters` to *every*
port (full rollback) before the error propagates — provided the rollback
applications themselves succeed (`hroll`), as the rollback runs with no
further exception handler.  Success leaves every port shaped with the new
dict; failure leaves every port shaped with the previous dict and the
stored parameters unchanged. -/
theorem C1_set_parameters_rollback (fail : Call → Bool) (l : LinkState)
    (tc : TCState) (parameters : TCParams)
    (hroll : ∀ i ∈ l.ports, fail (Call.setTC i l.parameters) = false) :
    ((Link.set_parameters fail l tc parameters).2.2 = false →
      (Link.set_parameters fail l tc parameters).1
          = { l with parameters := parameters }
      ∧ ∀ i ∈ l.ports,
          alookup (Link.set_parameters fail l tc parameters).2.1 i
            = some parameters)
    ∧ ((Link.set_parameters fail l tc parameters).2.2 = true →
      (Link.set_parameters fail l tc parameters).1 = l
      ∧ ∀ i ∈ l.ports,
          alookup (Link.set_parameters fail l tc parameters).2.1 i
            = some l.parameters) := by
  rcases happ : Link.apply_parameters fail l.ports parameters tc with ⟨tc1, ok⟩
  cases ok with
  | true =>
    constructor
    · intro _
      refine ⟨by simp [Link.set_parameters, happ], ?_⟩
      intro i hi
      simp only [Link.set_parameters, happ]
      have := apply_parameters_mem fail parameters l.ports tc (by rw [happ]) i hi
      rw [happ] at this
      exact this
    · intro h
      simp [Link.set_parameters, happ] at h
  | false =>
    constructor
    · intro h
      simp [Link.set_parameters, happ] at h
    · intro _
      refine ⟨by simp [Link.set_parameters, happ], ?_⟩
      intro i hi
      simp only [Link.set_parameters, happ]
      have hok2 : (Link.apply_parameters fail l.ports l.parameters tc1).2 = true :=
        apply_parameters_ok fail l.parameters l.ports tc1 hroll
      exact apply_parameters_mem fail l.parameters l.ports tc1 hok2 i hi

/-- Previous parameter set in the C1 witness scenario. -/
def C1P : TCParams := { TCParams.empty with delay := some 10 }

/-- New parameter set in the C1 witness scenario. -/
def C1Pnew : TCParams := { TCParams.empty with bandwidth := some 1000000 }

/-- Oracle for C1: applying the new parameters to port 2 fails; everything
else (including the rollback to `C1P`) succeeds. -/
def C1fail : Call → Bool :=
  fun c => decide (c = Call.setTC 2 C1Pnew)

/-- The C1 witness link: bridge 100 with ports 1 and 2 and current
parameters `C1P`. -/
def C1link : LinkState := ⟨some 100, C1P, [1, 2]⟩

/-- C1 witness: the rollback theorem applied at a concrete two-port link
where applying the new parameters fails on the second port; the run raises
and both ports end up with the previous parameters applied. -/
theorem C1_set_parameters_rollback_witness :
    (∀ i ∈ C1link.ports, C1fail (Call.setTC i C1link.parameters) = false)
    ∧ ((Link.set_parameters C1fail C1link [] C1Pnew).2.2 = true →
        (Link.set_parameters C1fail C1link [] C1Pnew).1 = C1link
        ∧ ∀ i ∈ C1link.ports,
            alookup (Link.set_parameters C1fail C1link [] C1Pnew).2.1 i
              = some C1link.parameters)
    ∧ (Link.set_parameters C1fail C1link [] C1Pnew).2.2 = true :=
  ⟨by decide,
   (C1_set_parameters_rollback C1fail C1link [] C1Pnew (by decide)).2,
   by decide⟩

/-! ## C6 — ForeignInterface restoration round-trip -/

/-- A sequence of attribute mutations on device `i`, each performed
through `ExternalInterface.__setattr__` (so each issues a sparse backend
`set_if`), applied to kernel interface state. -/
def applyAttrSets (kern : IfKern) (i : Nat)
    (muts : List (String × AttrVal)) : IfKern :=
  match muts with
  | [] => kern
  | kv :: r =>
    applyAttrSets (applyCalls kern (ExternalInterface.pySetattr [] i kv.1 kv.2).2) i r

theorem alookup_applyAttrSets (i : Nat) :
    ∀ (muts : List (String × AttrVal)) (kern : IfKern) (attrs : Attrs),
      alookup kern i = some attrs →
      (∀ kv ∈ muts, ¬ kv.1.front = '_') →
      alookup (applyAttrSets kern i muts) i = some (mergeAttrs attrs muts) := by
  intro muts
  induction muts with
  | nil =>
    intro kern attrs hk _
    rw [applyAttrSets, mergeAttrs_nil]
    exact hk
  | cons kv r ih =>
    intro kern attrs hk hmut
    obtain ⟨n, v⟩ := kv
    have hnu : ¬ n.front = '_' := hmut (n, v) (List.mem_cons_self _ _)
    have hstep : applyCalls kern (ExternalInterface.pySetattr [] i n v).2
        = aset kern i (aset attrs n v) := by
      rw [ExternalInterface.pySetattr, if_neg hnu]
      show applySetIf kern (sparseIf i n v) = aset kern i (aset attrs n v)
      rw [applySetIf]
      simp only [sparseIf]
      rw [hk]
      rfl
    rw [applyAttrSets, hstep, mergeAttrs_cons]
    exact ih (aset kern i (aset attrs n v)) (aset attrs n v)
      (alookup_aset_self kern i (aset attrs n v))
      (fun q hq => hmut q (List.mem_cons_of_mem _ hq))

/-- C6: a `ForeignInterface` snapshots the adopted device's full attribute
set at construction, and destroying it writes that exact snapshot back, so
after any sequence of attribute mutations (each over an attribute the
device actually has, set through the normal attribute mechanism) the
kernel-visible attribute state of the device is again exactly the original
snapshot — in particular `{mtu: 1500, up: true}` mutated to
`{mtu: 9000, up: false}` is restored to `{mtu: 1500, up: true}`. -/
theorem C6_restoration_round_trip (kern : IfKern) (i : Nat) (attrs : Attrs)
    (muts : List (String × AttrVal)) (s : FIState)
    (hk : alookup kern i = some attrs)
    (hnd : (attrs.map Prod.fst).Nodup)
    (hsub : ∀ kv ∈ muts, kv.1 ∈ attrs.map Prod.fst)
    (hund : ∀ kv ∈ muts, ¬ kv.1.front = '_')
    (hinit : ForeignInterface.init kern i = some s) :
    ∃ fin, alookup (applyCalls (applyAttrSets kern i muts)
        (ForeignInterface.destroy (fun _ => false) s).2.1) i = some fin
      ∧ ∀ n, alookup fin n = alookup attrs n := by
  have hs : s = ⟨i, some ⟨some i, attrs⟩⟩ := by
    rw [ForeignInterface.init, hk] at hinit
    simpa using hinit.symm
  subst hs
  have hmid : alookup (applyAttrSets kern i muts) i
      = some (mergeAttrs attrs muts) :=
    alookup_applyAttrSets i muts kern attrs hk hund
  have hdes : (ForeignInterface.destroy (fun _ => false)
      (⟨i, some ⟨some i, attrs⟩⟩ : FIState)).2.1
      = [Call.setIf ⟨some i, attrs⟩] := rfl
  rw [hdes]
  show ∃ fin, alookup (applySetIf (applyAttrSets kern i muts)
      ⟨some i, attrs⟩) i = some fin ∧ ∀ n, alookup fin n = alookup attrs n
  rw [applySetIf]
  simp only
  rw [hmid]
  refine ⟨mergeAttrs (mergeAttrs attrs muts) attrs, alookup_aset_self _ _ _, ?_⟩
  intro n
  rcases hcase : alookup attrs n with _ | v
  · have hnk : n ∉ attrs.map Prod.fst := not_mem_of_alookup_eq_none attrs n hcase
    have hnm : n ∉ muts.map Prod.fst := by
      intro hmem
      rcases List.mem_map.mp hmem with ⟨kv, hkv, hkv2⟩
      exact hnk (hkv2 ▸ hsub kv hkv)
    rw [alookup_mergeAttrs_not_mem _ _ _ hnk,
      alookup_mergeAttrs_not_mem _ _ _ hnm]
    exact hcase
  · exact alookup_mergeAttrs_some _ _ _ _ hnd hcase

/-- The original attribute set of the adopted device in the C6 witness. -/
def C6attrs : Attrs := [("mtu", AttrVal.nat 1500), ("up", AttrVal.bool true)]

/-- Kernel state of the C6 witness: one device, index 1, with `C6attrs`. -/
def C6kern : IfKern := [(1, C6attrs)]

/-- The mutations of the C6 witness: set mtu to 9000 and up to false. -/
def C6muts : List (String × AttrVal) :=
  [("mtu", AttrVal.nat 9000), ("up", AttrVal.bool false)]

/-- C6 witness: the round-trip theorem applied at the claim's concrete
scenario — adopt `{mtu: 1500, up: true}`, mutate to `{mtu: 9000,
up: false}`, destroy, and the kernel state is `{mtu: 1500, up: true}`
again. -/
theorem C6_restoration_round_trip_witness :
    (alookup C6kern 1 = some C6attrs
      ∧ (C6attrs.map Prod.fst).Nodup
      ∧ (∀ kv ∈ C6muts, kv.1 ∈ C6attrs.map Prod.fst)
      ∧ (∀ kv ∈ C6muts, ¬ kv.1.front = '_')
      ∧ ForeignInterface.init C6kern 1 = some ⟨1, some ⟨some 1, C6attrs⟩⟩)
    ∧ ∃ fin, alookup (applyCalls (applyAttrSets C6kern 1 C6muts)
        (ForeignInterface.destroy (fun _ => false)
          (⟨1, some ⟨some 1, C6attrs⟩⟩ : FIState)).2.1) 1 = some fin
      ∧ ∀ n, alookup fin n = alookup C6attrs n :=
  ⟨⟨by decide, by decide, by decide, by decide, by decide⟩,
   C6_restoration_round_trip C6kern 1 C6attrs C6muts
     ⟨1, some ⟨some 1, C6attrs⟩⟩ (by decide) (by decide) (by decide)
     (by decide) (by decide)⟩

/-! ## C5 — NodeInterface creation rollback -/

/-- C5: if migrating the namespace-side end into the target namespace
fails during `NodeInterface.__init__` (and the compensating `del_if` on
the control handle succeeds), the constructor raises after deleting the
control handle; the paired end goes away with it, so no interface handle
referencing either generated name remains resolvable, and the object is
never registered with the node (`node._add_interface` is never called). -/
theorem C5_node_interface_rollback (fail : Call → Bool) (k : VethKern)
    (pid mypid counter : Nat)
    (hfresh : ∀ e ∈ k.ifs, e.2 ≠ gen_if_name mypid counter
      ∧ e.2 ≠ gen_if_name mypid (counter + 1))
    (hcreate : fail (Call.createIfPair (gen_if_name mypid counter)
      (gen_if_name mypid (counter + 1))) = false)
    (hmig : fail (Call.changeNetns (k.freshIdx + 1) pid) = true)
    (hdel : fail (Call.delIf k.freshIdx) = false) :
    NodeInterface.init fail k pid mypid counter
      = InitResult.raised
          ((k.create_if_pair (gen_if_name mypid counter)
            (gen_if_name mypid (counter + 1))).1.del_if k.freshIdx)
          [Call.createIfPair (gen_if_name mypid counter)
             (gen_if_name mypid (counter + 1)),
           Call.changeNetns (k.freshIdx + 1) pid,
           Call.delIf k.freshIdx]
    ∧ Call.addInterface
        ∉ [Call.createIfPair (gen_if_name mypid counter)
             (gen_if_name mypid (counter + 1)),
           Call.changeNetns (k.freshIdx + 1) pid,
           Call.delIf k.freshIdx]
    ∧ ∀ e ∈ ((k.create_if_pair (gen_if_name mypid counter)
          (gen_if_name mypid (counter + 1))).1.del_if k.freshIdx).ifs,
        e.2 ≠ gen_if_name mypid counter
        ∧ e.2 ≠ gen_if_name mypid (counter + 1) := by
  refine ⟨?_, by simp, ?_⟩
  · simp [NodeInterface.init, VethKern.create_if_pair, hcreate, hmig, hdel]
  · intro e he
    simp only [VethKern.del_if, List.mem_filter] at he
    obtain ⟨hin, hdead⟩ := he
    have hd : e.1 ∉ k.freshIdx :: ((k.create_if_pair (gen_if_name mypid counter)
        (gen_if_name mypid (counter + 1))).1.peersOf k.freshIdx) :=
      of_decide_eq_true hdead
    simp only [VethKern.create_if_pair, List.mem_cons] at hin
    have hpeer : k.freshIdx + 1
        ∈ (k.create_if_pair (gen_if_name mypid counter)
            (gen_if_name mypid (counter + 1))).1.peersOf k.freshIdx := by
      simp [VethKern.peersOf, VethKern.create_if_pair, List.filterMap_cons]
    rcases hin with h1 | h2 | hk2
    · exfalso
      apply hd
      rw [h1]
      exact List.mem_cons_self _ _
    · exfalso
      apply hd
      rw [h2]
      exact List.mem_cons_of_mem _ hpeer
    · exact hfresh e hk2

/-- Initial kernel contents for the C5 witness: the loopback device. -/
def C5kern : VethKern := ⟨[(1, "lo")], []⟩

/-- Oracle for C5: only the migration of the freshly created
namespace-side end (index 3) into the target namespace (pid 99) fails. -/
def C5fail : Call → Bool :=
  fun c => decide (c = Call.changeNetns 3 99)

/-- C5 witness: the rollback theorem at a concrete kernel (loopback only,
pid 4660, counter 0): the create succeeds, the migration of index 3
fails, the rollback delete of index 2 succeeds, and afterwards no
resolvable handle carries either generated name. -/
theorem C5_node_interface_rollback_witness :
    ((∀ e ∈ C5kern.ifs, e.2 ≠ gen_if_name 4660 0 ∧ e.2 ≠ gen_if_name 4660 1)
      ∧ C5fail (Call.createIfPair (gen_if_name 4660 0) (gen_if_name 4660 1)) = false
      ∧ C5fail (Call.changeNetns (C5kern.freshIdx + 1) 99) = true
      ∧ C5fail (Call.delIf C5kern.freshIdx) = false)
    ∧ NodeInterface.init C5fail C5kern 99 4660 0
        = InitResult.raised
            ((C5kern.create_if_pair (gen_if_name 4660 0)
              (gen_if_name 4660 1)).1.del_if C5kern.freshIdx)
            [Call.createIfPair (gen_if_name 4660 0) (gen_if_name 4660 1),
             Call.changeNetns (C5kern.freshIdx + 1) 99,
             Call.delIf C5kern.freshIdx]
    ∧ ∀ e ∈ ((C5kern.create_if_pair (gen_if_name 4660 0)
          (gen_if_name 4660 1)).1.del_if C5kern.freshIdx).ifs,
        e.2 ≠ gen_if_name 4660 0 ∧ e.2 ≠ gen_if_name 4660 1 :=
  ⟨⟨by decide, by decide, by decide, by decide⟩,
   (C5_node_interface_rollback C5fail C5kern 99 4660 0 (by decide) (by decide)
     (by decide) (by decide)).1,
   (C5_node_interface_rollback C5fail C5kern 99 4660 0 (by decide) (by decide)
     (by decide) (by decide)).2.2⟩

/-! ## Destroy helper lemmas (shared by the idempotence and index
claims) -/

theorem NI_destroy_slave_false (fail : Call → Bool)
    (nsIfs : List Nat) (s : NIState)
    (h : (NodeInterface.destroy fail nsIfs s).2.2 = false) :
    (NodeInterface.destroy fail nsIfs s).1.slave = false := by
  rw [NodeInterface.destroy] at h ⊢
  by_cases hs : s.slave = true
  · rw [if_pos hs] at h ⊢
    by_cases hg : fail (Call.pGetIfData none) = true
    · rw [if_pos hg] at h
      simp at h
    · rw [if_neg hg] at h ⊢
      by_cases hm : s.idx ∈ nsIfs
      · rw [if_pos hm] at h ⊢
        by_cases hd : fail (Call.pDelIf s.idx) = true
        · rw [if_pos hd] at h
          simp at h
        · rw [if_neg hd]
      · rw [if_neg hm]
  · rw [if_neg hs]
    simp only [Bool.not_eq_true] at hs
    exact hs

theorem NI_destroy_noop (fail : Call → Bool) (nsIfs : List Nat)
    (s : NIState) (h : s.slave = false) :
    NodeInterface.destroy fail nsIfs s = (s, [], false) := by
  rw [NodeInterface.destroy, if_neg (by rw [h]; exact Bool.false_ne_true)]

theorem NI_destroy_idx (fail : Call → Bool) (nsIfs : List Nat)
    (s : NIState) : (NodeInterface.destroy fail nsIfs s).1.idx = s.idx := by
  rw [NodeInterface.destroy]
  split_ifs <;> rfl

theorem P2P_destroy_slave_false (fail : Call → Bool)
    (nsIfs : List Nat) (s : NIState)
    (h : (P2PInterface.destroy fail nsIfs s).2.2 = false) :
    (P2PInterface.destroy fail nsIfs s).1.slave = false := by
  rw [P2PInterface.destroy] at h ⊢
  by_cases hs : s.slave = true
  · rw [if_pos hs] at h ⊢
    by_cases hg : fail (Call.pGetIfData none) = true
    · rw [if_pos hg] at h
      simp at h
    · rw [if_neg hg] at h ⊢
      by_cases hm : s.idx ∈ nsIfs
      · rw [if_pos hm] at h ⊢
        by_cases hd : fail (Call.pDelIf s.idx) = true
        · rw [if_pos hd] at h
          simp at h
        · rw [if_neg hd]
      · rw [if_neg hm]
  · rw [if_neg hs]
    simp only [Bool.not_eq_true] at hs
    exact hs

theorem P2P_destroy_noop (fail : Call → Bool) (nsIfs : List Nat)
    (s : NIState) (h : s.slave = false) :
    P2PInterface.destroy fail nsIfs s = (s, [], false) := by
  rw [P2PInterface.destroy, if_neg (by rw [h]; exact Bool.false_ne_true)]

theorem P2P_destroy_idx (fail : Call → Bool) (nsIfs : List Nat)
    (s : NIState) : (P2PInterface.destroy fail nsIfs s).1.idx = s.idx := by
  rw [P2PInterface.destroy]
  split_ifs <;> rfl

theorem ForeignNI_destroy_slave_false (fail : Call → Bool)
    (nsIfs : List Nat) (s : FNIState)
    (h : (ForeignNodeInterface.destroy fail nsIfs s).2.2 = false) :
    (ForeignNodeInterface.destroy fail nsIfs s).1.slave = false := by
  rw [ForeignNodeInterface.destroy] at h ⊢
  by_cases hs : s.slave = true
  · rw [if_pos hs] at h ⊢
    by_cases hg : fail (Call.pGetIfData none) = true
    · rw [if_pos hg] at h
      simp at h
    · rw [if_neg hg] at h ⊢
      by_cases hm : s.idx ∈ nsIfs
      · rw [if_pos hm] at h ⊢
        by_cases hd : fail (Call.pSetIf s.original_state) = true
        · rw [if_pos hd] at h
          simp at h
        · rw [if_neg hd]
      · rw [if_neg hm]
  · rw [if_neg hs]
    simp only [Bool.not_eq_true] at hs
    exact hs

theorem ForeignNI_destroy_noop (fail : Call → Bool)
    (nsIfs : List Nat) (s : FNIState) (h : s.slave = false) :
    ForeignNodeInterface.destroy fail nsIfs s = (s, [], false) := by
  rw [ForeignNodeInterface.destroy,
    if_neg (by rw [h]; exact Bool.false_ne_true)]

theorem ForeignNI_destroy_idx (fail : Call → Bool)
    (nsIfs : List Nat) (s : FNIState) :
    (ForeignNodeInterface.destroy fail nsIfs s).1.idx = s.idx := by
  rw [ForeignNodeInterface.destroy]
  split_ifs <;> rfl

theorem ImportedNI_destroy_slave_false (fail : Call → Bool)
    (nsIfs : List Nat) (mypid : Nat) (s : FNIState)
    (h : (ImportedNodeInterface.destroy fail nsIfs mypid s).2.2 = false) :
    (ImportedNodeInterface.destroy fail nsIfs mypid s).1.slave = false := by
  rw [ImportedNodeInterface.destroy] at h ⊢
  by_cases hs : s.slave = true
  · rw [if_pos hs] at h ⊢
    by_cases hg : fail (Call.pGetIfData none) = true
    · rw [if_pos hg] at h
      simp at h
    · rw [if_neg hg] at h ⊢
      by_cases hm : s.idx ∈ nsIfs
      · rw [if_pos hm] at h ⊢
        by_cases hc : fail (Call.pChangeNetns s.idx mypid) = true
        · rw [if_pos hc] at h
          simp at h
        · rw [if_neg hc] at h ⊢
          by_cases hd : fail (Call.setIf s.original_state) = true
          · rw [if_pos hd] at h
            simp at h
          · rw [if_neg hd]
      · rw [if_neg hm] at h ⊢
        by_cases hd : fail (Call.setIf s.original_state) = true
        · rw [if_pos hd] at h
          simp at h
        · rw [if_neg hd]
  · rw [if_neg hs]
    simp only [Bool.not_eq_true] at hs
    exact hs

theorem ImportedNI_destroy_noop (fail : Call → Bool)
    (nsIfs : List Nat) (mypid : Nat) (s : FNIState) (h : s.slave = false) :
    ImportedNodeInterface.destroy fail nsIfs mypid s = (s, [], false) := by
  rw [ImportedNodeInterface.destroy,
    if_neg (by rw [h]; exact Bool.false_ne_true)]

theorem ImportedNI_destroy_idx (fail : Call → Bool)
    (nsIfs : List Nat) (mypid : Nat) (s : FNIState) :
    (ImportedNodeInterface.destroy fail nsIfs mypid s).1.idx = s.idx := by
  rw [ImportedNodeInterface.destroy]
  split_ifs <;> rfl

theorem FI_destroy_os_none (fail : Call → Bool) (s : FIState)
    (h : (ForeignInterface.destroy fail s).2.2 = false) :
    (ForeignInterface.destroy fail s).1.original_state = none := by
  rcases hos : s.original_state with _ | r
  · simp [ForeignInterface.destroy, hos]
  · simp only [ForeignInterface.destroy, hos] at h ⊢
    by_cases hf : fail (Call.setIf r) = true
    · rw [if_pos hf] at h
      simp at h
    · rw [if_neg hf]

theorem FI_destroy_noop (fail : Call → Bool) (s : FIState)
    (h : s.original_state = none) :
    ForeignInterface.destroy fail s = (s, [], false) := by
  have heq : ({ s with original_state := none } : FIState) = s := by
    cases s
    simp_all
  simp [ForeignInterface.destroy, h, heq]

theorem FI_destroy_idx (fail : Call → Bool) (s : FIState) :
    (ForeignInterface.destroy fail s).1.idx = s.idx := by
  rw [ForeignInterface.destroy]
  split
  · split_ifs <;> rfl
  · rfl

theorem Link.destroy_noop_none (fail : Call → Bool) (st : NetState)
    (l : LinkState) (h : l.idx = none) :
    Link.destroy fail st l = (st, l, [], false) := by
  simp [Link.destroy, h]

theorem Link.destroy_noop_zero (fail : Call → Bool) (st : NetState)
    (l : LinkState) (h : l.idx = some 0) :
    Link.destroy fail st l = (st, l, [], false) := by
  simp [Link.destroy, h]

theorem Link.destroy_success_idx (fail : Call → Bool) (st : NetState)
    (l : LinkState) (h : (Link.destroy fail st l).2.2.2 = false) :
    (Link.destroy fail st l).2.1.idx = none
    ∨ (Link.destroy fail st l = (st, l, [], false)
        ∧ (l.idx = none ∨ l.idx = some 0)) := by
  rcases hidx : l.idx with _ | b
  · exact Or.inr ⟨Link.destroy_noop_none fail st l hidx, Or.inl rfl⟩
  · by_cases hb : b = 0
    · subst hb
      exact Or.inr ⟨Link.destroy_noop_zero fail st l hidx, Or.inr rfl⟩
    · left
      simp only [Link.destroy, hidx] at h ⊢
      rw [if_neg hb] at h ⊢
      by_cases h1 : (Link.setIfPorts fail l.ports "up" (AttrVal.bool false) st.ifs).2.2 = true
      · rw [if_pos h1] at h
        simp at h
      · rw [if_neg h1] at h ⊢
        by_cases h2 : fail (Call.setBridge (sparseBr b "up" (AttrVal.bool false))) = true
        · rw [if_pos h2] at h
          simp at h
        · rw [if_neg h2] at h ⊢
          by_cases h3 : fail (Call.delBridge b) = true
          · rw [if_pos h3] at h
            simp at h
          · rw [if_neg h3]

/-! ## C2 — destroy is idempotent -/

/-- C2: for every interface variant (`NodeInterface`, `P2PInterface`,
`ForeignNodeInterface`, `ImportedNodeInterface`, `SlaveInterface`,
`ForeignInterface`) and for `Link`, once a first `destroy` has succeeded
(raised no error), a second `destroy` is a no-op: it returns with the
object state unchanged, raises nothing, and issues no backend or proxy
call (empty call trace) — the liveness reference (`_slave`,
`_original_state`, or the Link's index) guards re-entry. -/
theorem C2_destroy_idempotent (fail : Call → Bool) (nsIfs : List Nat)
    (mypid : Nat) (sN sP : NIState) (sF sI : FNIState) (sS : SlaveState)
    (sX : FIState) (st : NetState) (l : LinkState)
    (hN : (NodeInterface.destroy fail nsIfs sN).2.2 = false)
    (hP : (P2PInterface.destroy fail nsIfs sP).2.2 = false)
    (hF : (ForeignNodeInterface.destroy fail nsIfs sF).2.2 = false)
    (hI : (ImportedNodeInterface.destroy fail nsIfs mypid sI).2.2 = false)
    (hX : (ForeignInterface.destroy fail sX).2.2 = false)
    (hL : (Link.destroy fail st l).2.2.2 = false) :
    NodeInterface.destroy fail nsIfs (NodeInterface.destroy fail nsIfs sN).1
      = ((NodeInterface.destroy fail nsIfs sN).1, [], false)
    ∧ P2PInterface.destroy fail nsIfs (P2PInterface.destroy fail nsIfs sP).1
      = ((P2PInterface.destroy fail nsIfs sP).1, [], false)
    ∧ ForeignNodeInterface.destroy fail nsIfs
        (ForeignNodeInterface.destroy fail nsIfs sF).1
      = ((ForeignNodeInterface.destroy fail nsIfs sF).1, [], false)
    ∧ ImportedNodeInterface.destroy fail nsIfs mypid
        (ImportedNodeInterface.destroy fail nsIfs mypid sI).1
      = ((ImportedNodeInterface.destroy fail nsIfs mypid sI).1, [], false)
    ∧ SlaveInterface.destroy (SlaveInterface.destroy sS).1
      = ((SlaveInterface.destroy sS).1, [], false)
    ∧ ForeignInterface.destroy fail (ForeignInterface.destroy fail sX).1
      = ((ForeignInterface.destroy fail sX).1, [], false)
    ∧ Link.destroy fail (Link.destroy fail st l).1 (Link.destroy fail st l).2.1
      = ((Link.destroy fail st l).1, (Link.destroy fail st l).2.1, [], false) := by
  refine ⟨?_, ?_, ?_, ?_, rfl, ?_, ?_⟩
  · exact NI_destroy_noop fail nsIfs _
      (NI_destroy_slave_false fail nsIfs sN hN)
  · exact P2P_destroy_noop fail nsIfs _
      (P2P_destroy_slave_false fail nsIfs sP hP)
  · exact ForeignNI_destroy_noop fail nsIfs _
      (ForeignNI_destroy_slave_false fail nsIfs sF hF)
  · exact ImportedNI_destroy_noop fail nsIfs mypid _
      (ImportedNI_destroy_slave_false fail nsIfs mypid sI hI)
  · exact FI_destroy_noop fail _
      (FI_destroy_os_none fail sX hX)
  · rcases Link.destroy_success_idx fail st l hL with h | ⟨heq, hcase⟩
    · exact Link.destroy_noop_none fail _ _ h
    · rw [heq]
      rcases hcase with h0 | h0
      · exact Link.destroy_noop_none fail st l h0
      · exact Link.destroy_noop_zero fail st l h0

/-- Kernel state for the C2/C9 witnesses: control interface 5 carries the
bridge's port, bridge 100 exists. -/
def C2st : NetState :=
  ⟨[(5, [("up", AttrVal.bool true), ("mtu", AttrVal.nat 1500)])],
   [(5, TCParams.empty)], [(100, 5)],
   [(100, [("up", AttrVal.bool true), ("mtu", AttrVal.nat 1500)])]⟩

/-- Link for the C2/C9 witnesses: bridge 100 with port 5. -/
def C2link : LinkState := ⟨some 100, TCParams.empty, [5]⟩

/-- C2 witness: the idempotence theorem applied to concrete live objects
of every variant under the all-success oracle, each first destroy
succeeding. -/
theorem C2_destroy_idempotent_witness :
    ((NodeInterface.destroy (fun _ => false) [7] ⟨true, 7⟩).2.2 = false
      ∧ (P2PInterface.destroy (fun _ => false) [7] ⟨true, 8⟩).2.2 = false
      ∧ (ForeignNodeInterface.destroy (fun _ => false) [7]
          ⟨true, 7, ⟨some 7, [("up", AttrVal.bool true)]⟩⟩).2.2 = false
      ∧ (ImportedNodeInterface.destroy (fun _ => false) [7] 4660
          ⟨true, 7, ⟨some 7, [("up", AttrVal.bool true)]⟩⟩).2.2 = false
      ∧ (ForeignInterface.destroy (fun _ => false)
          ⟨5, some ⟨some 5, [("up", AttrVal.bool true)]⟩⟩).2.2 = false
      ∧ (Link.destroy (fun _ => false) C2st C2link).2.2.2 = false)
    ∧ NodeInterface.destroy (fun _ => false) [7]
        (NodeInterface.destroy (fun _ => false) [7] ⟨true, 7⟩).1
      = ((NodeInterface.destroy (fun _ => false) [7] ⟨true, 7⟩).1, [], false)
    ∧ Link.destroy (fun _ => false)
        (Link.destroy (fun _ => false) C2st C2link).1
        (Link.destroy (fun _ => false) C2st C2link).2.1
      = ((Link.destroy (fun _ => false) C2st C2link).1,
         (Link.destroy (fun _ => false) C2st C2link).2.1, [], false) :=
  ⟨⟨by decide, by decide, by decide, by decide, by decide, by decide⟩,
   (C2_destroy_idempotent (fun _ => false) [7] 4660 ⟨true, 7⟩ ⟨true, 8⟩
      ⟨true, 7, ⟨some 7, [("up", AttrVal.bool true)]⟩⟩
      ⟨true, 7, ⟨some 7, [("up", AttrVal.bool true)]⟩⟩ ⟨2⟩
      ⟨5, some ⟨some 5, [("up", AttrVal.bool true)]⟩⟩ C2st C2link
      (by decide) (by decide) (by decide) (by decide) (by decide)
      (by decide)).1,
   (C2_destroy_idempotent (fun _ => false) [7] 4660 ⟨true, 7⟩ ⟨true, 8⟩
      ⟨true, 7, ⟨some 7, [("up", AttrVal.bool true)]⟩⟩
      ⟨true, 7, ⟨some 7, [("up", AttrVal.bool true)]⟩⟩ ⟨2⟩
      ⟨5, some ⟨some 5, [("up", AttrVal.bool true)]⟩⟩ C2st C2link
      (by decide) (by decide) (by decide) (by decide) (by decide)
      (by decide)).2.2.2.2.2.2⟩

/-! ## C9 — index invalidation -/

theorem Link.set_parameters_idx (fail : Call → Bool) (l : LinkState)
    (tc : TCState) (p : TCParams) :
    (Link.set_parameters fail l tc p).1.idx = l.idx := by
  rcases h : Link.apply_parameters fail l.ports p tc with ⟨tc1, ok⟩
  cases ok <;> simp [Link.set_parameters, h]

theorem Link.disconnect_idx (fail : Call → Bool) (st : NetState)
    (l : LinkState) (pidx : Nat) :
    (Link.disconnect fail st l pidx).1.link.idx = l.idx := by
  unfold Link.disconnect
  repeat' (first | rfl | split)

theorem Link.connect_idx (fail : Call → Bool) (st : NetState)
    (l : LinkState) (pidx : Nat) :
    (Link.connect fail st l pidx).link.idx = l.idx := by
  unfold Link.connect Link.connectRollback
  repeat' (first | rfl | split | dsimp only)

/-- C9 counterexample: a `NodeInterface` whose destroy succeeded still
reads its previously assigned kernel index — `NodeInterface.destroy` never
touches `_idx` (only `Link.destroy` invalidates the index), so after a
successful destroy, `index` still yields 7, contradicting the claim that
the index becomes invalid at the moment destroy first succeeds for every
interface variant. -/
theorem C9_counterexample :
    (NodeInterface.destroy (fun _ => false) [7] ⟨true, 7⟩).2.2 = false
    ∧ (NodeInterface.destroy (fun _ => false) [7] ⟨true, 7⟩).1.slave = false
    ∧ (NodeInterface.destroy (fun _ => false) [7] ⟨true, 7⟩).1.idx = 7 := by
  decide

/-- C9 (amended): the kernel index is immutable once assigned: no destroy
of any interface variant and no Link operation (`set_parameters`,
`connect`, `disconnect`) ever changes it — with a single exception:
`Link.destroy` sets the Link's index to `None` at its first fully
successful run (given a nonzero bridge index), and once `None` it stays
`None` (a later destroy is a guarded no-op).  The non-Link variants keep
their index readable, with its originally assigned value, even after a
successful destroy; their destroyed-ness is tracked by the
`_slave`/`_original_state` liveness reference instead. -/
theorem C9_index_invalidation (fail : Call → Bool) (nsIfs : List Nat)
    (mypid : Nat) (sN sP : NIState) (sF sI : FNIState) (sS : SlaveState)
    (sX : FIState) (st : NetState) (l : LinkState) (tc : TCState)
    (p : TCParams) (pidx b : Nat)
    (hb : l.idx = some b) (hb0 : ¬ b = 0)
    (hL : (Link.destroy fail st l).2.2.2 = false) :
    (NodeInterface.destroy fail nsIfs sN).1.idx = sN.idx
    ∧ (P2PInterface.destroy fail nsIfs sP).1.idx = sP.idx
    ∧ (ForeignNodeInterface.destroy fail nsIfs sF).1.idx = sF.idx
    ∧ (ImportedNodeInterface.destroy fail nsIfs mypid sI).1.idx = sI.idx
    ∧ (SlaveInterface.destroy sS).1.idx = sS.idx
    ∧ (ForeignInterface.destroy fail sX).1.idx = sX.idx
    ∧ (Link.set_parameters fail l tc p).1.idx = l.idx
    ∧ (Link.connect fail st l pidx).link.idx = l.idx
    ∧ (Link.disconnect fail st l pidx).1.link.idx = l.idx
    ∧ (Link.destroy fail st l).2.1.idx = none
    ∧ (Link.destroy fail (Link.destroy fail st l).1
        (Link.destroy fail st l).2.1).2.1.idx = none := by
  have hinv : (Link.destroy fail st l).2.1.idx = none := by
    rcases Link.destroy_success_idx fail st l hL with h | ⟨_, hcase⟩
    · exact h
    · rcases hcase with h0 | h0
      · rw [hb] at h0
        cases h0
      · rw [hb] at h0
        exact absurd (by injection h0) hb0
  refine ⟨NI_destroy_idx fail nsIfs sN,
    P2P_destroy_idx fail nsIfs sP,
    ForeignNI_destroy_idx fail nsIfs sF,
    ImportedNI_destroy_idx fail nsIfs mypid sI,
    rfl,
    FI_destroy_idx fail sX,
    Link.set_parameters_idx fail l tc p,
    Link.connect_idx fail st l pidx,
    Link.disconnect_idx fail st l pidx,
    hinv, ?_⟩
  rw [Link.destroy_noop_none fail (Link.destroy fail st l).1
    (Link.destroy fail st l).2.1 hinv]
  exact hinv

/-- C9 witness: the amended theorem applied to concrete live objects and
the concrete Link of the C2 scenario (bridge index 100), whose first
destroy succeeds and invalidates the index exactly once. -/
theorem C9_index_invalidation_witness :
    (C2link.idx = some 100 ∧ ¬ (100 = 0)
      ∧ (Link.destroy (fun _ => false) C2st C2link).2.2.2 = false)
    ∧ (NodeInterface.destroy (fun _ => false) [7] ⟨true, 7⟩).1.idx = 7
    ∧ (Link.destroy (fun _ => false) C2st C2link).2.1.idx = none
    ∧ (Link.destroy (fun _ => false)
        (Link.destroy (fun _ => false) C2st C2link).1
        (Link.destroy (fun _ => false) C2st C2link).2.1).2.1.idx = none :=
  ⟨⟨by decide, by decide, by decide⟩,
   (C9_index_invalidation (fun _ => false) [7] 4660 ⟨true, 7⟩ ⟨true, 8⟩
      ⟨true, 7, ⟨some 7, []⟩⟩ ⟨true, 7, ⟨some 7, []⟩⟩ ⟨2⟩ ⟨5, none⟩
      C2st C2link [] TCParams.empty 5 100 (by decide) (by decide)
      (by decide)).1,
   (C9_index_invalidation (fun _ => false) [7] 4660 ⟨true, 7⟩ ⟨true, 8⟩
      ⟨true, 7, ⟨some 7, []⟩⟩ ⟨true, 7, ⟨some 7, []⟩⟩ ⟨2⟩ ⟨5, none⟩
      C2st C2link [] TCParams.empty 5 100 (by decide) (by decide)
      (by decide)).2.2.2.2.2.2.2.2.2.1,
   (C9_index_invalidation (fun _ => false) [7] 4660 ⟨true, 7⟩ ⟨true, 8⟩
      ⟨true, 7, ⟨some 7, []⟩⟩ ⟨true, 7, ⟨some 7, []⟩⟩ ⟨2⟩ ⟨5, none⟩
      C2st C2link [] TCParams.empty 5 100 (by decide) (by decide)
      (by decide)).2.2.2.2.2.2.2.2.2.2⟩

end Nemu
